import Mathlib

/-!
Verification of the `paris_price_estimator` repository.

The development shallowly embeds the two components of the repository:

* `GeoDVFDataset` (src/price_estimator/datasets/geo_dvf.py): a download
  cache keyed by (year, department).  The filesystem is modelled as a map
  from path strings to optional file contents, the network as a function
  from URL strings to HTTP responses, and each stateful method as an
  explicit state-passing function that also records the list of HTTP
  requests it issued.  Python exceptions are modelled with `Except`; the
  filesystem component of a result is returned even on error, since Python
  exceptions do not roll back filesystem writes.

* the geolocation helpers (src/price_estimator/tools/geolocation.py):
  the third-party geocoder is a parameter that can succeed, return no
  result, or raise.

Python `str(int)` is Lean's `toString : Int → String` (both print decimal
with a leading `-` for negatives), and Python's f-strings are string
concatenation.
-/

namespace PriceEstimator

/-- Embedding of the Python values that can reach the constructor's
`isinstance` checks. -/
inductive PyVal where
  | int (n : Int)
  | bool (b : Bool)
  | str (s : String)
  | float (s : String)
  | pyNone
  | list (xs : List PyVal)

/-- Python `isinstance(v, list)`. -/
def PyVal.isInstList : PyVal → Bool
  | .list _ => true
  | _ => false

/-- Python `isinstance(v, int)`.  `bool` is a subclass of `int` in Python,
so boolean values pass this check. -/
def PyVal.isInstInt : PyVal → Bool
  | .int _ => true
  | .bool _ => true
  | _ => false

/-- The validation performed by `GeoDVFDataset.__init__` (geo_dvf.py,
lines 37-44) before any attribute is assigned or any directory is created:
the four checks run in source order and each failure raises `ValueError`
with the corresponding message. -/
def initValidate (year departments : PyVal) : Except String Unit :=
  match year with
  | .list ys =>
    if ys.all PyVal.isInstInt then
      match departments with
      | .list ds =>
        if ds.all PyVal.isInstInt then
          Except.ok ()
        else
          Except.error "All elements in departments must be integers."
      | _ => Except.error "Departments must be a list of integers."
    else
      Except.error "All elements in year must be integers."
  | _ => Except.error "Year must be a list of integers."

/-- The state of a constructed `GeoDVFDataset`: base URL, years,
departments, and the resolved storage directory (geo_dvf.py, lines 46-57). -/
structure GeoDVFDataset where
  url : String
  year : List Int
  departments : List Int
  storage_path : String
deriving DecidableEq

/-- Embeds `GeoDVFDataset._get_filename` (geo_dvf.py, line 69):
`f"{department}.csv.gz"`. -/
def GeoDVFDataset.get_filename (_d : GeoDVFDataset) (_year department : Int) : String :=
  toString department ++ ".csv.gz"

/-- Embeds `GeoDVFDataset._get_filepath` (geo_dvf.py, lines 81-82):
`self.storage_path / f"{year}_{filename}"`, with `/` the path-join
separator of `pathlib`. -/
def GeoDVFDataset.get_filepath (d : GeoDVFDataset) (year department : Int) : String :=
  d.storage_path ++ "/" ++ (toString year ++ "_" ++ d.get_filename year department)

/-- Embeds `GeoDVFDataset._get_url` (geo_dvf.py, line 94):
`f"{self.url}/{year}/departements/{department}.csv.gz"`. -/
def GeoDVFDataset.get_url (d : GeoDVFDataset) (year department : Int) : String :=
  d.url ++ "/" ++ toString year ++ "/departements/" ++ toString department ++ ".csv.gz"

/-- Embeds `GeoDVFDataset.get_urls` (geo_dvf.py, lines 102-107): the list
comprehension `[url(y, dep) for y in self.year for dep in self.departments]`,
outer loop over years, inner loop over departments. -/
def GeoDVFDataset.get_urls (d : GeoDVFDataset) : List String :=
  d.year.flatMap (fun year => d.departments.map (fun department => d.get_url year department))

/-- The (year, department) pairs in the iteration order shared by
`download`, `open_db` and `cleanup` (outer loop over `self.year`, inner
loop over `self.departments`). -/
def GeoDVFDataset.pairs (d : GeoDVFDataset) : List (Int × Int) :=
  d.year.flatMap (fun year => d.departments.map (fun department => (year, department)))

/-- The filesystem: a map from path strings to the contents of the file
stored there, `none` when no file exists at that path. -/
def FS : Type := String → Option String

/-- An HTTP response as seen by `download`: `requests.get` returns an
object with a status code and a byte body. -/
structure Response where
  status_code : Nat
  content : String

/-- The loop body of `GeoDVFDataset.download` (geo_dvf.py, lines 121-144),
processing the remaining (year, department) pairs.  The result carries the
final filesystem (also on error: a Python exception does not undo earlier
writes), the list of URLs that were requested over the network in order,
and either the final `(downloaded_count, skipped_count)` pair or the
`RuntimeError` message raised on the first non-200 response. -/
def GeoDVFDataset.downloadLoop (d : GeoDVFDataset) (net : String → Response) :
    List (Int × Int) → FS → Nat → Nat → List String →
      FS × List String × Except String (Nat × Nat)
  | [], fs, downloaded, skipped, reqs => (fs, reqs, Except.ok (downloaded, skipped))
  | (year, department) :: rest, fs, downloaded, skipped, reqs =>
    let filepath := d.get_filepath year department
    if (fs filepath).isSome then
      d.downloadLoop net rest fs downloaded (skipped + 1) reqs
    else
      let url := d.get_url year department
      let response := net url
      if response.status_code = 200 then
        d.downloadLoop net rest (fun p => if p = filepath then some response.content else fs p)
          (downloaded + 1) skipped (reqs ++ [url])
      else
        (fs, reqs ++ [url],
          Except.error ("Failed to download " ++ url ++ ": " ++ toString response.status_code))

/-- Embeds `GeoDVFDataset.download` (geo_dvf.py, lines 109-149): iterate over the
(year, department) pairs with both counters starting at zero. -/
def GeoDVFDataset.download (d : GeoDVFDataset) (net : String → Response) (fs : FS) :
    FS × List String × Except String (Nat × Nat) :=
  d.downloadLoop net d.pairs fs 0 0 []

/-- Embeds `GeoDVFDataset.open_db` (geo_dvf.py, lines 151-178): collect the
derived paths that exist, fail with `FileNotFoundError` when none does,
otherwise parse each file with `read_csv` and concatenate the rows in file
order.  `Row` abstracts one parsed CSV row. -/
def GeoDVFDataset.open_db {Row : Type} (d : GeoDVFDataset) (fs : FS)
    (read_csv : String → List Row) : Except String (List Row) :=
  let files := (d.pairs.filter (fun p => (fs (d.get_filepath p.1 p.2)).isSome)).map
      (fun p => d.get_filepath p.1 p.2)
  if files.isEmpty then
    Except.error ("No dataset files found in " ++ d.storage_path ++
      ". Did you run download() first?")
  else
    Except.ok ((files.map (fun f => read_csv ((fs f).getD ""))).flatten)

/-- Embeds `pathlib.Path.unlink` with its default `missing_ok=False`: remove the
file, or raise `FileNotFoundError` when no file exists at the path. -/
def unlink (fs : FS) (p : String) : FS × Except String Unit :=
  if (fs p).isSome then
    ((fun q => if q = p then none else fs q), Except.ok ())
  else
    (fs, Except.error ("FileNotFoundError: " ++ p))

/-- The deletion loop of `GeoDVFDataset.cleanup` (geo_dvf.py, lines
189-190): unlink each listed path in order, stopping at the first
exception (earlier deletions persist). -/
def cleanupLoop : FS → List String → FS × Except String Unit
  | fs, [] => (fs, Except.ok ())
  | fs, p :: rest =>
    match unlink fs p with
    | (fs1, Except.ok _) => cleanupLoop fs1 rest
    | (fs1, Except.error e) => (fs1, Except.error e)

/-- Embeds `GeoDVFDataset.cleanup` (geo_dvf.py, lines 180-191): list the derived
paths that currently exist (the existence filter runs before any
deletion), unlink them in order, and report `len(files)` on completion. -/
def GeoDVFDataset.cleanup (d : GeoDVFDataset) (fs : FS) : FS × Except String Nat :=
  let files := (d.pairs.filter (fun p => (fs (d.get_filepath p.1 p.2)).isSome)).map
      (fun p => d.get_filepath p.1 p.2)
  match cleanupLoop fs files with
  | (fs1, Except.ok _) => (fs1, Except.ok files.length)
  | (fs1, Except.error e) => (fs1, Except.error e)

/-- One call to the third-party geocoding provider: a result, Python
`None` (no result), or a raised exception carrying a message. -/
inductive ProviderOutcome (α : Type) where
  | found (a : α)
  | noResult
  | raised (msg : String)

/-- A geocoder result object: `location.latitude`, `location.longitude`,
`location.address`.  Coordinates and addresses are abstract types; the
helpers only pass them through. -/
structure Location (Coord Addr : Type) where
  latitude : Coord
  longitude : Coord
  address : Addr

/-- Embeds `address_to_coordinates` (geolocation.py, lines 6-25): call the
provider's `geocode`; on a result return its latitude/longitude pair, on
`None` return `(None, None)`, and on any raised exception catch it and
return `(None, None)` as well. -/
def address_to_coordinates {Coord Addr : Type}
    (geocode : String → ProviderOutcome (Location Coord Addr)) (address : String) :
    Option Coord × Option Coord :=
  match geocode address with
  | ProviderOutcome.found location => (some location.latitude, some location.longitude)
  | ProviderOutcome.noResult => (none, none)
  | ProviderOutcome.raised _ => (none, none)

/-- Embeds `coordinates_to_address` (geolocation.py, lines 28-47): call the
provider's `reverse`; on a result return its address, on `None` return
`None`, and on any raised exception catch it and return `None` as well. -/
def coordinates_to_address {Coord Addr : Type}
    (reverse : Coord × Coord → ProviderOutcome (Location Coord Addr))
    (latitude longitude : Coord) : Option Addr :=
  match reverse (latitude, longitude) with
  | ProviderOutcome.found location => some location.address
  | ProviderOutcome.noResult => none
  | ProviderOutcome.raised _ => none

/-- The decimal digit characters of a natural number, most significant
first: the reference rendering used to reason about `Nat.repr`. -/
def decDigits (n : Nat) : List Char :=
  if _h : n < 10 then [Nat.digitChar n]
  else decDigits (n / 10) ++ [Nat.digitChar (n % 10)]
termination_by n
decreasing_by exact Nat.div_lt_self (by omega) (by omega)

/-- The numeric value of a digit character. -/
def digitVal (c : Char) : Nat := c.toNat - 48

/-- A small concrete configuration used by the concrete witnesses. -/
def sampleDS : GeoDVFDataset := ⟨"b", [2023], [75], "s"⟩

/-- The sample configuration with an empty years list. -/
def sampleDSEmptyYears : GeoDVFDataset := ⟨"b", [], [75], "s"⟩

/-- The sample configuration with a duplicated year. -/
def sampleDSDup : GeoDVFDataset := ⟨"b", [2023, 2023], [75], "s"⟩

/-- A network on which every request succeeds. -/
def sampleNet200 : String → Response := fun _ => ⟨200, "payload"⟩

/-- A network on which every request fails with status 404. -/
def sampleNet404 : String → Response := fun _ => ⟨404, "missing"⟩

/-- The empty filesystem. -/
def fsEmpty : FS := fun _ => none

/-- A filesystem holding exactly the cached file of (2023, 75) under the
sample storage root. -/
def fs2023 : FS := fun p => if p = "s/2023_75.csv.gz" then some "cached" else none

/-- Like `fs2023`, plus an unrelated file in the storage directory. -/
def fs2023extra : FS := fun p =>
  if p = "s/2023_75.csv.gz" then some "cached"
  else if p = "s/unrelated.txt" then some "keep" else none

/-- A trivial CSV parser used by concrete witnesses: one row per file. -/
def sampleReadCsv : String → List String := fun s => [s]

/-- The spec's validity condition on one constructor argument: the value
is a list and every element is an integer — in Python's `isinstance`
sense, so booleans count as integers (see C10). -/
def validIntListArg : PyVal → Bool
  | .list xs => xs.all PyVal.isInstInt
  | _ => false

/-- The natural number denoted by a list of decimal digit characters. -/
def decValue (l : List Char) : Nat := l.foldl (fun a c => 10 * a + digitVal c) 0

theorem decDigits_of_lt (n : Nat) (h : n < 10) : decDigits n = [Nat.digitChar n] := by
  rw [decDigits]
  simp [h]

theorem decDigits_of_ge (n : Nat) (h : ¬n < 10) :
    decDigits n = decDigits (n / 10) ++ [Nat.digitChar (n % 10)] := by
  rw [decDigits]
  simp [h]

theorem digitVal_digitChar : ∀ k < 10, digitVal (Nat.digitChar k) = k := by decide

theorem isDigit_digitChar : ∀ k < 10, (Nat.digitChar k).isDigit = true := by decide

theorem decValue_decDigits (n : Nat) : decValue (decDigits n) = n := by
  induction n using Nat.strong_induction_on with
  | _ n ih =>
    by_cases h : n < 10
    · rw [decDigits_of_lt n h]
      simp [decValue, List.foldl, digitVal_digitChar n h]
    · rw [decDigits_of_ge n h]
      have h10 : n / 10 < n := Nat.div_lt_self (by omega) (by omega)
      have h1 := ih (n / 10) h10
      simp only [decValue, List.foldl_append, List.foldl] at h1 ⊢
      rw [h1, digitVal_digitChar (n % 10) (Nat.mod_lt _ (by omega))]
      omega

theorem decDigits_injective {m k : Nat} (h : decDigits m = decDigits k) : m = k := by
  have := decValue_decDigits m
  rw [h, decValue_decDigits k] at this
  omega

theorem mem_decDigits_isDigit (n : Nat) : ∀ c ∈ decDigits n, c.isDigit = true := by
  induction n using Nat.strong_induction_on with
  | _ n ih =>
    intro c hc
    by_cases h : n < 10
    · rw [decDigits_of_lt n h] at hc
      simp at hc
      rw [hc]
      exact isDigit_digitChar n h
    · rw [decDigits_of_ge n h] at hc
      rcases List.mem_append.mp hc with h1 | h1
      · exact ih (n / 10) (Nat.div_lt_self (by omega) (by omega)) c h1
      · simp at h1
        rw [h1]
        exact isDigit_digitChar (n % 10) (Nat.mod_lt _ (by omega))

theorem toDigitsCore_eq_decDigits (fuel : Nat) :
    ∀ (n : Nat) (acc : List Char), n < fuel →
      Nat.toDigitsCore 10 fuel n acc = decDigits n ++ acc := by
  induction fuel with
  | zero => omega
  | succ f ih =>
    intro n acc h
    simp only [Nat.toDigitsCore]
    by_cases hdiv : n / 10 = 0
    · have hlt : n < 10 := by omega
      have hmod : n % 10 = n := by omega
      rw [if_pos hdiv, decDigits_of_lt n hlt, hmod]
      rfl
    · have hge : ¬n < 10 := by omega
      have hfl : n / 10 < f := by omega
      rw [if_neg hdiv, ih (n / 10) (Nat.digitChar (n % 10) :: acc) hfl,
        decDigits_of_ge n hge]
      simp

theorem natRepr_data (n : Nat) : (Nat.repr n).data = decDigits n := by
  have := toDigitsCore_eq_decDigits (n + 1) n [] (by omega)
  simpa [Nat.repr, Nat.toDigits] using this

theorem natRepr_injective {m k : Nat} (h : Nat.repr m = Nat.repr k) : m = k := by
  have hd : (Nat.repr m).data = (Nat.repr k).data := by rw [h]
  rw [natRepr_data, natRepr_data] at hd
  exact decDigits_injective hd

theorem intRepr_data_digit_or_neg (i : Int) :
    ∀ c ∈ (Int.repr i).data, c.isDigit = true ∨ c = '-' := by
  intro c hc
  cases i with
  | ofNat m =>
    left
    exact mem_decDigits_isDigit m c (by rwa [show Int.repr (Int.ofNat m) = Nat.repr m from rfl, natRepr_data m] at hc)
  | negSucc m =>
    have : (Int.repr (Int.negSucc m)).data = '-' :: (Nat.repr (m + 1)).data := rfl
    rw [this] at hc
    rcases List.mem_cons.mp hc with h1 | h1
    · right; exact h1
    · left
      rw [natRepr_data] at h1
      exact mem_decDigits_isDigit (m + 1) c h1

theorem intRepr_injective {i j : Int} (h : Int.repr i = Int.repr j) : i = j := by
  cases i with
  | ofNat m =>
    cases j with
    | ofNat k =>
      rw [show Int.ofNat m = Int.ofNat k from congrArg Int.ofNat (natRepr_injective h)]
    | negSucc k =>
      exfalso
      have hd : (Nat.repr m).data = '-' :: (Nat.repr (k + 1)).data := congrArg String.data h
      have hm : '-' ∈ (Nat.repr m).data := by rw [hd]; exact List.mem_cons_self _ _
      rw [natRepr_data] at hm
      have := mem_decDigits_isDigit m '-' hm
      simp [Char.isDigit] at this
  | negSucc m =>
    cases j with
    | ofNat k =>
      exfalso
      have hd : '-' :: (Nat.repr (m + 1)).data = (Nat.repr k).data := congrArg String.data h
      have hm : '-' ∈ (Nat.repr k).data := by rw [← hd]; exact List.mem_cons_self _ _
      rw [natRepr_data] at hm
      have := mem_decDigits_isDigit k '-' hm
      simp [Char.isDigit] at this
    | negSucc k =>
      have hd : '-' :: (Nat.repr (m + 1)).data = '-' :: (Nat.repr (k + 1)).data :=
        congrArg String.data h
      have hs : Nat.repr (m + 1) = Nat.repr (k + 1) := String.ext (by simpa using hd)
      have hmk : m = k := by have := natRepr_injective hs; omega
      rw [hmk]

theorem toString_int_no_sep (i : Int) (c : Char) (hdig : c.isDigit = false)
    (hneg : c ≠ '-') : c ∉ (toString i).data := by
  intro hc
  rcases intRepr_data_digit_or_neg i c hc with h1 | h1
  · rw [hdig] at h1; cases h1
  · exact hneg h1

theorem append_sep_injective {c : Char} {xs ys : List Char} :
    ∀ {zs ws : List Char}, c ∉ xs → c ∉ zs →
      xs ++ c :: ys = zs ++ c :: ws → xs = zs ∧ ys = ws := by
  induction xs with
  | nil =>
    intro zs ws _ h2 h
    cases zs with
    | nil => simpa using h
    | cons b u =>
      exfalso
      simp only [List.nil_append, List.cons_append, List.cons.injEq] at h
      exact h2 (h.1 ▸ List.mem_cons_self _ _)
  | cons a t ih =>
    intro zs ws h1 h2 h
    cases zs with
    | nil =>
      exfalso
      simp only [List.nil_append, List.cons_append, List.cons.injEq] at h
      exact h1 (h.1 ▸ List.mem_cons_self _ _)
    | cons b u =>
      simp only [List.cons_append, List.cons.injEq] at h
      have := ih (fun hm => h1 (List.mem_cons_of_mem _ hm))
        (fun hm => h2 (List.mem_cons_of_mem _ hm)) h.2
      exact ⟨by rw [h.1, this.1], this.2⟩

theorem string_data_append (a b : String) : (a ++ b).data = a.data ++ b.data := rfl

theorem slash_data : ("/" : String).data = ['/'] := rfl

theorem underscore_data : ("_" : String).data = ['_'] := rfl

theorem csvgz_data : ((".csv.gz" : String)).data = '.' :: ("csv.gz" : String).data := rfl

theorem toString_int_eq (i : Int) : toString i = Int.repr i := rfl

theorem get_filepath_data (d : GeoDVFDataset) (y dep : Int) :
    (d.get_filepath y dep).data =
      d.storage_path.data ++
        ('/' :: ((toString y).data ++ '_' :: ((toString dep).data ++ '.' :: ("csv.gz" : String).data))) := by
  simp only [GeoDVFDataset.get_filepath, GeoDVFDataset.get_filename, string_data_append,
    slash_data, underscore_data, csvgz_data, List.append_assoc, List.singleton_append,
    List.cons_append, List.nil_append]

theorem get_filepath_injective (d : GeoDVFDataset) {y1 d1 y2 d2 : Int}
    (h : d.get_filepath y1 d1 = d.get_filepath y2 d2) : y1 = y2 ∧ d1 = d2 := by
  have hd := congrArg String.data h
  rw [get_filepath_data, get_filepath_data] at hd
  have h1 := List.append_cancel_left hd
  have h2 : (toString y1).data ++ '_' :: ((toString d1).data ++ '.' :: ("csv.gz" : String).data)
      = (toString y2).data ++ '_' :: ((toString d2).data ++ '.' :: ("csv.gz" : String).data) := by
    simpa using h1
  have hy := append_sep_injective
    (toString_int_no_sep y1 '_' (by decide) (by decide))
    (toString_int_no_sep y2 '_' (by decide) (by decide)) h2
  have hdd := append_sep_injective
    (toString_int_no_sep d1 '.' (by decide) (by decide))
    (toString_int_no_sep d2 '.' (by decide) (by decide)) hy.2
  refine ⟨?_, ?_⟩
  · have := String.ext hy.1
    rw [toString_int_eq, toString_int_eq] at this
    exact intRepr_injective this
  · have := String.ext hdd.1
    rw [toString_int_eq, toString_int_eq] at this
    exact intRepr_injective this

/-- C5: `_get_filepath` maps (year, department) to
`{storagePath}/{year}_{department}.csv.gz`, and the mapping is injective:
under one storage root, distinct integer pairs derive distinct file
paths. -/
theorem C5_filepath_formula_and_injective (d : GeoDVFDataset) :
    (∀ y dep : Int, d.get_filepath y dep =
        d.storage_path ++ "/" ++ toString y ++ "_" ++ toString dep ++ ".csv.gz")
    ∧ ∀ y1 d1 y2 d2 : Int, (y1, d1) ≠ (y2, d2) →
        d.get_filepath y1 d1 ≠ d.get_filepath y2 d2 := by
  constructor
  · intro y dep
    apply String.ext
    simp [GeoDVFDataset.get_filepath, GeoDVFDataset.get_filename, string_data_append,
      List.append_assoc]
  · intro y1 d1 y2 d2 hne heq
    have := get_filepath_injective d heq
    exact hne (by rw [this.1, this.2])

/-- Witness for C5 at a concrete configuration: the paths of (2023, 75)
and (2023, 92) differ. -/
theorem C5_filepath_formula_and_injective_witness :
    (GeoDVFDataset.mk "https://files.data.gouv.fr/geo-dvf/latest/csv" [2023] [75, 92]
        "/tmp/geo_dvf_cache").get_filepath 2023 75
      ≠ (GeoDVFDataset.mk "https://files.data.gouv.fr/geo-dvf/latest/csv" [2023] [75, 92]
        "/tmp/geo_dvf_cache").get_filepath 2023 92 :=
  (C5_filepath_formula_and_injective _).2 2023 75 2023 92 (by decide)

theorem length_flatMap_const {α β : Type} (l : List α) (f : α → List β) (k : Nat)
    (h : ∀ a ∈ l, (f a).length = k) : (l.flatMap f).length = l.length * k := by
  induction l with
  | nil => simp
  | cons a t ih =>
    rw [List.flatMap_cons, List.length_append, h a (List.mem_cons_self a t),
      ih (fun b hb => h b (List.mem_cons_of_mem a hb)), List.length_cons,
      Nat.succ_mul]
    omega

theorem pairs_length (d : GeoDVFDataset) :
    d.pairs.length = d.year.length * d.departments.length :=
  length_flatMap_const d.year _ d.departments.length (fun _ _ => List.length_map _ _)

theorem pairs_nodup (d : GeoDVFDataset) (hy : d.year.Nodup) (hd : d.departments.Nodup) :
    d.pairs.Nodup :=
  List.Nodup.product hy hd

/-- The filesystem returned by the download loop keeps every file that
was present when the loop started, with identical contents, whether the
loop completes or aborts. -/
theorem downloadLoop_preserves (d : GeoDVFDataset) (net : String → Response) :
    ∀ (l : List (Int × Int)) (fs : FS) (dc sc : Nat) (reqs : List String) (p v : String),
      fs p = some v → (d.downloadLoop net l fs dc sc reqs).1 p = some v := by
  intro l
  induction l with
  | nil =>
    intro fs dc sc reqs p v h
    simpa [GeoDVFDataset.downloadLoop] using h
  | cons pr rest ih =>
    intro fs dc sc reqs p v h
    obtain ⟨y, dep⟩ := pr
    simp only [GeoDVFDataset.downloadLoop]
    by_cases hex : (fs (d.get_filepath y dep)).isSome
    · rw [if_pos hex]
      exact ih _ _ _ _ p v h
    · rw [if_neg hex]
      by_cases hst : (net (d.get_url y dep)).status_code = 200
      · rw [if_pos hst]
        apply ih
        have hne : p ≠ d.get_filepath y dep := by
          intro he
          rw [← he, h] at hex
          simp at hex
        simp [hne, h]
      · rw [if_neg hst]
        exact h

/-- When the download loop completes without error, the file of every
processed pair is present in the final filesystem. -/
theorem downloadLoop_ok_exists (d : GeoDVFDataset) (net : String → Response) :
    ∀ (l : List (Int × Int)) (fs : FS) (dc sc : Nat) (reqs : List String) (r : Nat × Nat),
      (d.downloadLoop net l fs dc sc reqs).2.2 = Except.ok r →
      ∀ pr ∈ l, ((d.downloadLoop net l fs dc sc reqs).1 (d.get_filepath pr.1 pr.2)).isSome := by
  intro l
  induction l with
  | nil => simp
  | cons hd0 rest ih =>
    intro fs dc sc reqs r hok pr hpr
    obtain ⟨y, dep⟩ := hd0
    simp only [GeoDVFDataset.downloadLoop] at hok ⊢
    by_cases hex : (fs (d.get_filepath y dep)).isSome
    · rw [if_pos hex] at hok ⊢
      rcases List.mem_cons.mp hpr with h1 | h1
      · obtain ⟨v, hv⟩ := Option.isSome_iff_exists.mp hex
        rw [h1]
        rw [downloadLoop_preserves d net rest fs dc (sc + 1) reqs _ v hv]
        rfl
      · exact ih _ _ _ _ r hok pr h1
    · rw [if_neg hex] at hok ⊢
      by_cases hst : (net (d.get_url y dep)).status_code = 200
      · rw [if_pos hst] at hok ⊢
        rcases List.mem_cons.mp hpr with h1 | h1
        · rw [h1]
          rw [downloadLoop_preserves d net rest _ (dc + 1) sc _ _ (net (d.get_url y dep)).content
            (by simp)]
          rfl
        · exact ih _ _ _ _ r hok pr h1
      · rw [if_neg hst] at hok
        cases hok


/-- When every remaining pair's file is already present, the download
loop only skips: the filesystem and the request list are unchanged and
the skip counter grows by the number of pairs. -/
theorem downloadLoop_all_skip (d : GeoDVFDataset) (net : String → Response) :
    ∀ (l : List (Int × Int)) (fs : FS) (dc sc : Nat) (reqs : List String),
      (∀ pr ∈ l, (fs (d.get_filepath pr.1 pr.2)).isSome) →
      d.downloadLoop net l fs dc sc reqs = (fs, reqs, Except.ok (dc, sc + l.length)) := by
  intro l
  induction l with
  | nil =>
    intro fs dc sc reqs _
    simp [GeoDVFDataset.downloadLoop]
  | cons hd0 rest ih =>
    intro fs dc sc reqs hall
    obtain ⟨y, dep⟩ := hd0
    have hex : (fs (d.get_filepath y dep)).isSome := hall (y, dep) (List.mem_cons_self _ _)
    simp only [GeoDVFDataset.downloadLoop]
    rw [if_pos hex, ih fs dc (sc + 1) reqs (fun pr hpr => hall pr (List.mem_cons_of_mem _ hpr))]
    have : sc + 1 + rest.length = sc + (rest.length + 1) := by omega
    rw [this]
    rfl

/-- Splitting the download loop at a successful prefix: after processing
`l1` without error, the loop continues on `l2` from the reached state. -/
theorem downloadLoop_append (d : GeoDVFDataset) (net : String → Response) :
    ∀ (l1 l2 : List (Int × Int)) (fs : FS) (dc sc : Nat) (reqs : List String)
      (fs1 : FS) (reqs1 : List String) (dc1 sc1 : Nat),
      d.downloadLoop net l1 fs dc sc reqs = (fs1, reqs1, Except.ok (dc1, sc1)) →
      d.downloadLoop net (l1 ++ l2) fs dc sc reqs = d.downloadLoop net l2 fs1 dc1 sc1 reqs1 := by
  intro l1
  induction l1 with
  | nil =>
    intro l2 fs dc sc reqs fs1 reqs1 dc1 sc1 h
    simp only [GeoDVFDataset.downloadLoop, Prod.mk.injEq, Except.ok.injEq] at h
    obtain ⟨h1, h2, h3, h4⟩ := h
    rw [List.nil_append, h1, h2, h3, h4]
  | cons hd0 rest ih =>
    intro l2 fs dc sc reqs fs1 reqs1 dc1 sc1 h
    obtain ⟨y, dep⟩ := hd0
    simp only [GeoDVFDataset.downloadLoop, List.cons_append] at h ⊢
    by_cases hex : (fs (d.get_filepath y dep)).isSome
    · rw [if_pos hex] at h ⊢
      exact ih l2 _ _ _ _ _ _ _ _ h
    · rw [if_neg hex] at h ⊢
      by_cases hst : (net (d.get_url y dep)).status_code = 200
      · rw [if_pos hst] at h ⊢
        exact ih l2 _ _ _ _ _ _ _ _ h
      · rw [if_neg hst] at h
        exact absurd (congrArg (fun t => t.2.2) h) (by simp)

/-- When every remaining pair's file is missing, the pairs derive
pairwise-distinct paths, and every response is 200, the loop requests
exactly the pairs' URLs in order and downloads all of them. -/
theorem downloadLoop_all_download (d : GeoDVFDataset) (net : String → Response) :
    ∀ (l : List (Int × Int)) (fs : FS) (dc sc : Nat) (reqs : List String),
      l.Pairwise (fun p q => d.get_filepath p.1 p.2 ≠ d.get_filepath q.1 q.2) →
      (∀ pr ∈ l, fs (d.get_filepath pr.1 pr.2) = none) →
      (∀ pr ∈ l, (net (d.get_url pr.1 pr.2)).status_code = 200) →
      (d.downloadLoop net l fs dc sc reqs).2.1
          = reqs ++ l.map (fun pr => d.get_url pr.1 pr.2)
        ∧ (d.downloadLoop net l fs dc sc reqs).2.2 = Except.ok (dc + l.length, sc) := by
  intro l
  induction l with
  | nil =>
    intro fs dc sc reqs _ _ _
    simp [GeoDVFDataset.downloadLoop]
  | cons hd0 rest ih =>
    intro fs dc sc reqs hpw hmiss hok
    obtain ⟨y, dep⟩ := hd0
    have hm : fs (d.get_filepath y dep) = none := hmiss (y, dep) (List.mem_cons_self _ _)
    have hs : (net (d.get_url y dep)).status_code = 200 := hok (y, dep) (List.mem_cons_self _ _)
    simp only [GeoDVFDataset.downloadLoop]
    rw [if_neg (by simp [hm]), if_pos hs]
    have hpw' := (List.pairwise_cons.mp hpw)
    have hrec := ih (fun p => if p = d.get_filepath y dep
          then some (net (d.get_url y dep)).content else fs p)
      (dc + 1) sc (reqs ++ [d.get_url y dep]) hpw'.2
      (fun pr hpr => by
        have hne : d.get_filepath pr.1 pr.2 ≠ d.get_filepath y dep :=
          fun he => hpw'.1 pr hpr he.symm
        simp [hne, hmiss pr (List.mem_cons_of_mem _ hpr)])
      (fun pr hpr => hok pr (List.mem_cons_of_mem _ hpr))
    refine ⟨?_, ?_⟩
    · rw [hrec.1]
      simp
    · rw [hrec.2]
      have : dc + 1 + rest.length = dc + (rest.length + 1) := by omega
      rw [this]
      rfl

theorem pairs_append (url sp : String) (ynew yold ds : List Int) :
    (GeoDVFDataset.mk url (ynew ++ yold) ds sp).pairs
      = (ynew.flatMap fun y => ds.map fun dep => (y, dep))
        ++ (yold.flatMap fun y => ds.map fun dep => (y, dep)) :=
  List.flatMap_append ynew yold _

theorem nodup_pairwise_filepath (d : GeoDVFDataset) {l : List (Int × Int)} (h : l.Nodup) :
    l.Pairwise (fun p q => d.get_filepath p.1 p.2 ≠ d.get_filepath q.1 q.2) :=
  List.Pairwise.imp
    (fun hne heq => hne (by
      obtain ⟨h1, h2⟩ := get_filepath_injective d heq
      exact Prod.ext h1 h2)) h

/-- C1: `download()` requests exactly the pairs whose file is missing: a
second `download()` after a successful one performs zero requests and
skips `len(years) * len(departments)` pairs; extending a populated cache
with new years requests only the new years' pairs; empty `years` or
`departments` performs zero requests. -/
theorem C1_download_requests_exactly_missing :
    (∀ (d : GeoDVFDataset) (net net2 : String → Response) (fs : FS) (r : Nat × Nat),
        (d.download net fs).2.2 = Except.ok r →
        d.download net2 (d.download net fs).1
          = ((d.download net fs).1, [], Except.ok (0, d.year.length * d.departments.length)))
    ∧ (∀ (url sp : String) (ynew yold ds : List Int) (net : String → Response) (fs : FS),
        ynew.Nodup → ds.Nodup →
        (∀ y ∈ yold, ∀ dep ∈ ds,
          ((fs ((GeoDVFDataset.mk url (ynew ++ yold) ds sp).get_filepath y dep)).isSome)) →
        (∀ y ∈ ynew, ∀ dep ∈ ds,
          fs ((GeoDVFDataset.mk url (ynew ++ yold) ds sp).get_filepath y dep) = none) →
        (∀ u, (net u).status_code = 200) →
        ((GeoDVFDataset.mk url (ynew ++ yold) ds sp).download net fs).2.1
            = ynew.flatMap (fun y => ds.map (fun dep =>
                (GeoDVFDataset.mk url (ynew ++ yold) ds sp).get_url y dep))
          ∧ ((GeoDVFDataset.mk url (ynew ++ yold) ds sp).download net fs).2.2
            = Except.ok (ynew.length * ds.length, yold.length * ds.length))
    ∧ (∀ (d : GeoDVFDataset) (net : String → Response) (fs : FS),
        d.year = [] ∨ d.departments = [] →
          d.download net fs = (fs, [], Except.ok (0, 0))) := by
  refine ⟨?_, ?_, ?_⟩
  · intro d net net2 fs r hok
    have hall := downloadLoop_ok_exists d net d.pairs fs 0 0 [] r hok
    have h2 := downloadLoop_all_skip d net2 d.pairs ((d.download net fs).1) 0 0 [] hall
    show d.downloadLoop net2 d.pairs (d.download net fs).1 0 0 [] = _
    rw [h2, Nat.zero_add, pairs_length]
  · intro url sp ynew yold ds net fs hynd hdsnd hold hnew hnet
    have hpwnew : (ynew.flatMap fun y => ds.map fun dep => (y, dep)).Pairwise
        (fun p q => (GeoDVFDataset.mk url (ynew ++ yold) ds sp).get_filepath p.1 p.2
          ≠ (GeoDVFDataset.mk url (ynew ++ yold) ds sp).get_filepath q.1 q.2) :=
      nodup_pairwise_filepath _ (List.Nodup.product hynd hdsnd)
    have hmiss : ∀ pr ∈ (ynew.flatMap fun y => ds.map fun dep => (y, dep)),
        fs ((GeoDVFDataset.mk url (ynew ++ yold) ds sp).get_filepath pr.1 pr.2) = none := by
      intro pr hpr
      rw [List.mem_flatMap] at hpr
      obtain ⟨y, hy, hpr⟩ := hpr
      rw [List.mem_map] at hpr
      obtain ⟨dep, hdep, hpr⟩ := hpr
      rw [← hpr]
      exact hnew y hy dep hdep
    have hph := downloadLoop_all_download (GeoDVFDataset.mk url (ynew ++ yold) ds sp) net
      (ynew.flatMap fun y => ds.map fun dep => (y, dep)) fs 0 0 [] hpwnew hmiss
      (fun pr _ => hnet _)
    have hok1 : (GeoDVFDataset.mk url (ynew ++ yold) ds sp).downloadLoop net
        (ynew.flatMap fun y => ds.map fun dep => (y, dep)) fs 0 0 []
        = (((GeoDVFDataset.mk url (ynew ++ yold) ds sp).downloadLoop net
            (ynew.flatMap fun y => ds.map fun dep => (y, dep)) fs 0 0 []).1,
           ((GeoDVFDataset.mk url (ynew ++ yold) ds sp).downloadLoop net
            (ynew.flatMap fun y => ds.map fun dep => (y, dep)) fs 0 0 []).2.1,
           Except.ok (0 + (ynew.flatMap fun y => ds.map fun dep => (y, dep)).length, 0)) := by
      rw [← hph.2]
    have happ := downloadLoop_append (GeoDVFDataset.mk url (ynew ++ yold) ds sp) net
      (ynew.flatMap fun y => ds.map fun dep => (y, dep))
      (yold.flatMap fun y => ds.map fun dep => (y, dep)) fs 0 0 [] _ _ _ _ hok1
    have hold' : ∀ pr ∈ (yold.flatMap fun y => ds.map fun dep => (y, dep)),
        ((((GeoDVFDataset.mk url (ynew ++ yold) ds sp).downloadLoop net
            (ynew.flatMap fun y => ds.map fun dep => (y, dep)) fs 0 0 []).1)
          ((GeoDVFDataset.mk url (ynew ++ yold) ds sp).get_filepath pr.1 pr.2)).isSome := by
      intro pr hpr
      rw [List.mem_flatMap] at hpr
      obtain ⟨y, hy, hpr⟩ := hpr
      rw [List.mem_map] at hpr
      obtain ⟨dep, hdep, hpr⟩ := hpr
      have hsome : (fs ((GeoDVFDataset.mk url (ynew ++ yold) ds sp).get_filepath
          pr.1 pr.2)).isSome := by
        rw [← hpr]
        exact hold y hy dep hdep
      obtain ⟨v, hv⟩ := Option.isSome_iff_exists.mp hsome
      rw [downloadLoop_preserves _ net _ fs 0 0 [] _ v hv]
      rfl
    have hskip := downloadLoop_all_skip (GeoDVFDataset.mk url (ynew ++ yold) ds sp) net
      (yold.flatMap fun y => ds.map fun dep => (y, dep))
      ((GeoDVFDataset.mk url (ynew ++ yold) ds sp).downloadLoop net
        (ynew.flatMap fun y => ds.map fun dep => (y, dep)) fs 0 0 []).1
      (0 + (ynew.flatMap fun y => ds.map fun dep => (y, dep)).length) 0
      ((GeoDVFDataset.mk url (ynew ++ yold) ds sp).downloadLoop net
        (ynew.flatMap fun y => ds.map fun dep => (y, dep)) fs 0 0 []).2.1 hold'
    have hfinal : (GeoDVFDataset.mk url (ynew ++ yold) ds sp).download net fs
        = (((GeoDVFDataset.mk url (ynew ++ yold) ds sp).downloadLoop net
            (ynew.flatMap fun y => ds.map fun dep => (y, dep)) fs 0 0 []).1,
           ((GeoDVFDataset.mk url (ynew ++ yold) ds sp).downloadLoop net
            (ynew.flatMap fun y => ds.map fun dep => (y, dep)) fs 0 0 []).2.1,
           Except.ok (0 + (ynew.flatMap fun y => ds.map fun dep => (y, dep)).length,
             0 + (yold.flatMap fun y => ds.map fun dep => (y, dep)).length)) := by
      show (GeoDVFDataset.mk url (ynew ++ yold) ds sp).downloadLoop net
          (GeoDVFDataset.mk url (ynew ++ yold) ds sp).pairs fs 0 0 [] = _
      rw [pairs_append, happ, hskip]
    have hl1 : (ynew.flatMap fun y => ds.map fun dep => (y, dep)).length
        = ynew.length * ds.length :=
      length_flatMap_const ynew _ ds.length (fun _ _ => List.length_map _ _)
    have hl2 : (yold.flatMap fun y => ds.map fun dep => (y, dep)).length
        = yold.length * ds.length :=
      length_flatMap_const yold _ ds.length (fun _ _ => List.length_map _ _)
    constructor
    · rw [hfinal]
      show ((GeoDVFDataset.mk url (ynew ++ yold) ds sp).downloadLoop net
          (ynew.flatMap fun y => ds.map fun dep => (y, dep)) fs 0 0 []).2.1 = _
      rw [hph.1]
      simp [List.map_flatMap, List.map_map, Function.comp_def]
    · rw [hfinal]
      show Except.ok (0 + _, 0 + _) = _
      rw [Nat.zero_add, Nat.zero_add, hl1, hl2]
  · intro d net fs h
    have hp : d.pairs = [] := by
      rcases h with h | h <;> simp [GeoDVFDataset.pairs, h]
    show d.downloadLoop net d.pairs fs 0 0 [] = _
    rw [hp]
    rfl

/-- Witness for C1: a successful first download of the sample
configuration makes the second download a pure skip; a cache populated
for 2023 plus years [2022, 2023] requests only year 2022's URL; empty
years yield no requests. -/
theorem C1_download_requests_exactly_missing_witness :
    (sampleDS.download sampleNet200 ((sampleDS.download sampleNet200 fsEmpty).1)
        = ((sampleDS.download sampleNet200 fsEmpty).1, [], Except.ok (0, 1)))
    ∧ ((GeoDVFDataset.mk "b" ([2022] ++ [2023]) [75] "s").download sampleNet200 fs2023).2.1
        = ["b/2022/departements/75.csv.gz"]
    ∧ sampleDSEmptyYears.download sampleNet200 fsEmpty = (fsEmpty, [], Except.ok (0, 0)) := by
  refine ⟨?_, ?_, ?_⟩
  · exact C1_download_requests_exactly_missing.1 sampleDS sampleNet200 sampleNet200 fsEmpty
      (1, 0) rfl
  · have h := C1_download_requests_exactly_missing.2.1 "b" "s" [2022] [2023] [75]
      sampleNet200 fs2023 (by decide) (by decide) (by decide) (by decide) (fun _ => rfl)
    exact h.1.trans (by decide)
  · exact C1_download_requests_exactly_missing.2.2 sampleDSEmptyYears sampleNet200 fsEmpty
      (Or.inl rfl)

/-- C2: `get_urls` is exactly the years-major, departments-minor list of
`{baseUrl}/{year}/departements/{department}.csv.gz` strings, of length
`len(years) * len(departments)`, and empty when either list is empty. -/
theorem C2_get_urls_cartesian (d : GeoDVFDataset) :
    d.get_urls = d.year.flatMap (fun y => d.departments.map (fun dep =>
        d.url ++ "/" ++ toString y ++ "/departements/" ++ toString dep ++ ".csv.gz"))
    ∧ d.get_urls.length = d.year.length * d.departments.length
    ∧ (d.year = [] ∨ d.departments = [] → d.get_urls = []) := by
  refine ⟨rfl, ?_, ?_⟩
  · exact length_flatMap_const d.year _ d.departments.length (fun _ _ => List.length_map _ _)
  · intro h
    rcases h with h | h <;> simp [GeoDVFDataset.get_urls, h]

/-- Witness for C2: the sample configuration yields the single expected
URL, and the empty-years configuration yields no URLs. -/
theorem C2_get_urls_cartesian_witness :
    sampleDS.get_urls = ["b/2023/departements/75.csv.gz"]
    ∧ sampleDSEmptyYears.get_urls = [] := by
  refine ⟨?_, (C2_get_urls_cartesian sampleDSEmptyYears).2.2 (Or.inl rfl)⟩
  exact (C2_get_urls_cartesian sampleDS).1.trans (by decide)

/-- C3: on the first response whose status is not 200, `download` aborts
at once: the result does not depend on the remaining pairs, the raised
message names the offending URL and its status code, and the filesystem
reached so far — including every file written earlier in the call — is
returned untouched (no rollback). -/
theorem C3_abort_on_first_bad_status (d : GeoDVFDataset) (net : String → Response)
    (y dep : Int) (rest : List (Int × Int)) (fs : FS) (dc sc : Nat) (reqs : List String)
    (hmiss : fs (d.get_filepath y dep) = none)
    (hbad : (net (d.get_url y dep)).status_code ≠ 200) :
    d.downloadLoop net ((y, dep) :: rest) fs dc sc reqs
      = (fs, reqs ++ [d.get_url y dep],
          Except.error ("Failed to download " ++ d.get_url y dep ++ ": "
            ++ toString (net (d.get_url y dep)).status_code)) := by
  simp only [GeoDVFDataset.downloadLoop]
  rw [if_neg (by simp [hmiss]), if_neg hbad]

/-- Witness for C3 at a concrete failing request: the sample 404 network
aborts the loop on (2023, 75) without touching the later pair. -/
theorem C3_abort_on_first_bad_status_witness :
    sampleDS.downloadLoop sampleNet404 [(2023, 75), (2024, 75)] fsEmpty 0 0 []
      = (fsEmpty, ["b/2023/departements/75.csv.gz"],
          Except.error "Failed to download b/2023/departements/75.csv.gz: 404") := by
  have h := C3_abort_on_first_bad_status sampleDS sampleNet404 2023 75 [(2024, 75)]
    fsEmpty 0 0 [] rfl (by decide)
  exact h.trans rfl

/-- C9: `download` never writes to, truncates or deletes a file that is
present when a pair is processed: any file present in the filesystem
given to the loop — in particular one written earlier in the same call —
is byte-for-byte unchanged in the result, whether the call completes or
aborts. -/
theorem C9_download_preserves_existing (d : GeoDVFDataset) (net : String → Response)
    (l : List (Int × Int)) (fs : FS) (dc sc : Nat) (reqs : List String) (p v : String)
    (h : fs p = some v) :
    (d.downloadLoop net l fs dc sc reqs).1 p = some v
    ∧ (d.download net fs).1 p = some v :=
  ⟨downloadLoop_preserves d net l fs dc sc reqs p v h,
   downloadLoop_preserves d net d.pairs fs 0 0 [] p v h⟩

/-- Witness for C9: the cached (2023, 75) file survives a download over
the all-200 network and over the all-404 network. -/
theorem C9_download_preserves_existing_witness :
    ((sampleDS.downloadLoop sampleNet404 [(2024, 75)] fs2023 0 0 []).1 "s/2023_75.csv.gz"
        = some "cached")
    ∧ (sampleDS.download sampleNet200 fs2023).1 "s/2023_75.csv.gz" = some "cached" := by
  have h := C9_download_preserves_existing sampleDS sampleNet404 [(2024, 75)] fs2023 0 0 []
    "s/2023_75.csv.gz" "cached" rfl
  have h2 := C9_download_preserves_existing sampleDS sampleNet200 [] fs2023 0 0 []
    "s/2023_75.csv.gz" "cached" rfl
  exact ⟨h.1, h2.2⟩

/-- C4: the geocoding helpers never propagate a provider exception: any
raised provider fault and the no-result case alike collapse to the
absent-value result — `(None, None)` for `address_to_coordinates` and
`None` for `coordinates_to_address` — with no distinction surfaced. -/
theorem C4_geocoding_swallows_provider_errors {Coord Addr : Type}
    (geocode : String → ProviderOutcome (Location Coord Addr))
    (reverse : Coord × Coord → ProviderOutcome (Location Coord Addr))
    (address : String) (latitude longitude : Coord) :
    (∀ msg, geocode address = ProviderOutcome.raised msg →
        address_to_coordinates geocode address = (none, none))
    ∧ (geocode address = ProviderOutcome.noResult →
        address_to_coordinates geocode address = (none, none))
    ∧ (∀ msg, reverse (latitude, longitude) = ProviderOutcome.raised msg →
        coordinates_to_address reverse latitude longitude = none)
    ∧ (reverse (latitude, longitude) = ProviderOutcome.noResult →
        coordinates_to_address reverse latitude longitude = none) := by
  refine ⟨fun msg h => ?_, fun h => ?_, fun msg h => ?_, fun h => ?_⟩ <;>
    simp [address_to_coordinates, coordinates_to_address, h]

/-- Witness for C4: a provider that always raises and a provider that
always finds nothing both yield the absent values. -/
theorem C4_geocoding_swallows_provider_errors_witness :
    address_to_coordinates
        (fun _ => (ProviderOutcome.raised "timeout" : ProviderOutcome (Location Int String)))
        "10 rue de Rivoli" = (none, none)
    ∧ coordinates_to_address
        (fun _ => (ProviderOutcome.noResult : ProviderOutcome (Location Int String)))
        48 2 = none := by
  constructor
  · exact (C4_geocoding_swallows_provider_errors
      (fun _ => (ProviderOutcome.raised "timeout" : ProviderOutcome (Location Int String)))
      (fun _ => ProviderOutcome.noResult) "10 rue de Rivoli" 48 2).1 "timeout" rfl
  · exact (C4_geocoding_swallows_provider_errors
      (fun _ => (ProviderOutcome.raised "timeout" : ProviderOutcome (Location Int String)))
      (fun _ => ProviderOutcome.noResult) "10 rue de Rivoli" 48 2).2.2.2 rfl

/-- C6: `open_db` fails with the "nothing downloaded yet" error exactly
when none of the derived paths of the configured pairs exists; otherwise
it parses each existing file and concatenates the rows, files in pair
order, rows in source order. -/
theorem C6_open_db_error_iff_cache_empty {Row : Type} (d : GeoDVFDataset) (fs : FS)
    (read_csv : String → List Row) :
    (d.open_db fs read_csv
        = Except.error ("No dataset files found in " ++ d.storage_path
            ++ ". Did you run download() first?")
      ↔ ∀ pr ∈ d.pairs, fs (d.get_filepath pr.1 pr.2) = none)
    ∧ ((∃ pr ∈ d.pairs, (fs (d.get_filepath pr.1 pr.2)).isSome) →
        d.open_db fs read_csv = Except.ok
          (((d.pairs.filter (fun pr => (fs (d.get_filepath pr.1 pr.2)).isSome)).map
              (fun pr => read_csv ((fs (d.get_filepath pr.1 pr.2)).getD ""))).flatten)) := by
  by_cases hall : ∀ pr ∈ d.pairs, fs (d.get_filepath pr.1 pr.2) = none
  · have hfil : d.pairs.filter (fun pr => (fs (d.get_filepath pr.1 pr.2)).isSome) = [] :=
      List.filter_eq_nil_iff.mpr (fun pr hpr => by simp [hall pr hpr])
    constructor
    · refine ⟨fun _ => hall, fun _ => ?_⟩
      simp only [GeoDVFDataset.open_db, hfil]
      rfl
    · rintro ⟨pr, hpr, hsome⟩
      rw [hall pr hpr] at hsome
      cases hsome
  · have hne : ∃ pr ∈ d.pairs, (fs (d.get_filepath pr.1 pr.2)).isSome := by
      push_neg at hall
      obtain ⟨pr, hpr, hnn⟩ := hall
      exact ⟨pr, hpr, Option.isSome_iff_ne_none.mpr hnn⟩
    obtain ⟨pr, hpr, hsome⟩ := hne
    have hmem : pr ∈ d.pairs.filter (fun pr => (fs (d.get_filepath pr.1 pr.2)).isSome) :=
      List.mem_filter.mpr ⟨hpr, hsome⟩
    have hnotnil : ¬((d.pairs.filter (fun pr => (fs (d.get_filepath pr.1 pr.2)).isSome)).map
        (fun pr => d.get_filepath pr.1 pr.2)).isEmpty = true := by
      rw [List.isEmpty_iff]
      intro h
      rw [List.map_eq_nil_iff] at h
      rw [h] at hmem
      cases hmem
    have hok : d.open_db fs read_csv = Except.ok
        (((d.pairs.filter (fun pr => (fs (d.get_filepath pr.1 pr.2)).isSome)).map
          (fun pr => read_csv ((fs (d.get_filepath pr.1 pr.2)).getD ""))).flatten) := by
      simp only [GeoDVFDataset.open_db]
      rw [if_neg hnotnil, List.map_map]
      rfl
    refine ⟨⟨fun herr => ?_,
      fun h2 => absurd (h2 pr hpr) (Option.isSome_iff_ne_none.mp hsome)⟩, fun _ => hok⟩
    rw [hok] at herr
    cases herr

/-- Witness for C6: on the empty filesystem the sample configuration
fails with the expected message; with the (2023, 75) file cached it
returns that file's parsed rows. -/
theorem C6_open_db_error_iff_cache_empty_witness :
    sampleDS.open_db fsEmpty sampleReadCsv
        = Except.error "No dataset files found in s. Did you run download() first?"
    ∧ sampleDS.open_db fs2023 sampleReadCsv = Except.ok ["cached"] := by
  constructor
  · exact (C6_open_db_error_iff_cache_empty sampleDS fsEmpty sampleReadCsv).1.mpr
      (by decide)
  · exact (C6_open_db_error_iff_cache_empty sampleDS fs2023 sampleReadCsv).2
      ⟨(2023, 75), by decide, by decide⟩

theorem cleanupLoop_spec : ∀ (files : List String) (fs : FS),
    files.Nodup → (∀ q ∈ files, (fs q).isSome) →
    (cleanupLoop fs files).2 = Except.ok ()
    ∧ (∀ q ∈ files, (cleanupLoop fs files).1 q = none)
    ∧ (∀ q, q ∉ files → (cleanupLoop fs files).1 q = fs q) := by
  intro files
  induction files with
  | nil => exact fun fs _ _ => ⟨rfl, by simp, fun q _ => rfl⟩
  | cons p rest ih =>
    intro fs hnd hall
    have hp : (fs p).isSome := hall p (List.mem_cons_self _ _)
    obtain ⟨hpm, hndr⟩ := List.nodup_cons.mp hnd
    have hunlink : unlink fs p = ((fun q => if q = p then none else fs q), Except.ok ()) := by
      simp [unlink, hp]
    have hstep : cleanupLoop fs (p :: rest)
        = cleanupLoop (fun q => if q = p then none else fs q) rest := by
      simp only [cleanupLoop]
      rw [hunlink]
    have hall' : ∀ q ∈ rest, ((fun q => if q = p then none else fs q) q).isSome := by
      intro q hq
      have hqp : q ≠ p := fun he => hpm (he ▸ hq)
      simp only [if_neg hqp]
      exact hall q (List.mem_cons_of_mem _ hq)
    have hr := ih (fun q => if q = p then none else fs q) hndr hall'
    refine ⟨by rw [hstep]; exact hr.1, ?_, ?_⟩
    · intro q hq
      rw [hstep]
      rcases List.mem_cons.mp hq with h1 | h1
      · subst h1
        rw [hr.2.2 q hpm]
        simp
      · exact hr.2.1 q h1
    · intro q hq
      rw [hstep]
      have hq1 : q ≠ p := fun he => hq (he ▸ List.mem_cons_self _ _)
      have hq2 : q ∉ rest := fun hm => hq (List.mem_cons_of_mem _ hm)
      rw [hr.2.2 q hq2]
      simp [hq1]

/-- Counterexample to C7 as stated: with the duplicated year list
[2023, 2023] the existence filter lists the same path twice, the second
`unlink` hits an already-deleted file, and `cleanup()` raises
`FileNotFoundError` instead of reporting a count. -/
theorem C7_cleanup_counterexample :
    (sampleDSDup.cleanup fs2023).2 = Except.error "FileNotFoundError: s/2023_75.csv.gz" :=
  rfl

/-- C7 (amended): when the configured (year, department) pairs are
pairwise distinct, `cleanup()` deletes exactly the derived files that
exist, reports their number, and leaves every other path — in particular
every file not at a derived path — untouched.  (Directories are outside
the filesystem model; the embedding only maps file paths.) -/
theorem C7_cleanup_deletes_exactly_derived (d : GeoDVFDataset) (fs : FS)
    (hnd : d.pairs.Nodup) :
    (d.cleanup fs).2 = Except.ok
        ((d.pairs.filter (fun pr => (fs (d.get_filepath pr.1 pr.2)).isSome)).length)
    ∧ (∀ pr ∈ d.pairs, (d.cleanup fs).1 (d.get_filepath pr.1 pr.2) = none)
    ∧ (∀ q, (∀ pr ∈ d.pairs, q ≠ d.get_filepath pr.1 pr.2) → (d.cleanup fs).1 q = fs q) := by
  have hinj : Function.Injective (fun pr : Int × Int => d.get_filepath pr.1 pr.2) := by
    intro p q h
    obtain ⟨h1, h2⟩ := get_filepath_injective d h
    exact Prod.ext h1 h2
  have hfilnd : (d.pairs.filter (fun pr => (fs (d.get_filepath pr.1 pr.2)).isSome)).Nodup :=
    List.Sublist.nodup (List.filter_sublist _) hnd
  have hfilesnd : ((d.pairs.filter (fun pr => (fs (d.get_filepath pr.1 pr.2)).isSome)).map
      (fun pr => d.get_filepath pr.1 pr.2)).Nodup := hfilnd.map hinj
  have hallex : ∀ q ∈ (d.pairs.filter (fun pr => (fs (d.get_filepath pr.1 pr.2)).isSome)).map
      (fun pr => d.get_filepath pr.1 pr.2), (fs q).isSome := by
    intro q hq
    rw [List.mem_map] at hq
    obtain ⟨pr', hpr', heq⟩ := hq
    rw [← heq]
    exact (List.mem_filter.mp hpr').2
  have hspec := cleanupLoop_spec _ fs hfilesnd hallex
  have hred : d.cleanup fs
      = ((cleanupLoop fs ((d.pairs.filter (fun pr => (fs (d.get_filepath pr.1 pr.2)).isSome)).map
            (fun pr => d.get_filepath pr.1 pr.2))).1,
         Except.ok ((d.pairs.filter (fun pr => (fs (d.get_filepath pr.1 pr.2)).isSome)).map
            (fun pr => d.get_filepath pr.1 pr.2)).length) := by
    simp only [GeoDVFDataset.cleanup]
    rw [show cleanupLoop fs ((d.pairs.filter (fun pr => (fs (d.get_filepath pr.1 pr.2)).isSome)).map
          (fun pr => d.get_filepath pr.1 pr.2))
        = ((cleanupLoop fs ((d.pairs.filter (fun pr => (fs (d.get_filepath pr.1 pr.2)).isSome)).map
            (fun pr => d.get_filepath pr.1 pr.2))).1, Except.ok ())
      from Prod.ext rfl hspec.1]
  refine ⟨?_, ?_, ?_⟩
  · rw [hred, List.length_map]
  · intro pr hpr
    by_cases hs : (fs (d.get_filepath pr.1 pr.2)).isSome
    · have hm : d.get_filepath pr.1 pr.2
          ∈ (d.pairs.filter (fun pr => (fs (d.get_filepath pr.1 pr.2)).isSome)).map
            (fun pr => d.get_filepath pr.1 pr.2) :=
        List.mem_map.mpr ⟨pr, List.mem_filter.mpr ⟨hpr, hs⟩, rfl⟩
      rw [hred]
      exact hspec.2.1 _ hm
    · have hnm : d.get_filepath pr.1 pr.2
          ∉ (d.pairs.filter (fun pr => (fs (d.get_filepath pr.1 pr.2)).isSome)).map
            (fun pr => d.get_filepath pr.1 pr.2) := by
        intro hm
        rw [List.mem_map] at hm
        obtain ⟨pr', hpr', heq⟩ := hm
        rw [hinj heq] at hpr'
        exact hs (List.mem_filter.mp hpr').2
      rw [hred, hspec.2.2 _ hnm]
      exact Option.not_isSome_iff_eq_none.mp hs
  · intro q hq
    have hnm : q ∉ (d.pairs.filter (fun pr => (fs (d.get_filepath pr.1 pr.2)).isSome)).map
        (fun pr => d.get_filepath pr.1 pr.2) := by
      intro hm
      rw [List.mem_map] at hm
      obtain ⟨pr', hpr', heq⟩ := hm
      exact hq pr' (List.mem_filter.mp hpr').1 heq.symm
    rw [hred]
    exact hspec.2.2 _ hnm

/-- Witness for C7 (amended) at the sample configuration: the (2023, 75)
file is removed, the count is 1, and the unrelated file survives. -/
theorem C7_cleanup_deletes_exactly_derived_witness :
    (sampleDS.cleanup fs2023extra).2 = Except.ok 1
    ∧ (sampleDS.cleanup fs2023extra).1 "s/2023_75.csv.gz" = none
    ∧ (sampleDS.cleanup fs2023extra).1 "s/unrelated.txt" = some "keep" := by
  have h := C7_cleanup_deletes_exactly_derived sampleDS fs2023extra (by decide)
  refine ⟨h.1, h.2.1 (2023, 75) (by decide), ?_⟩
  exact (h.2.2 "s/unrelated.txt" (by decide)).trans rfl

theorem except_unit_error_iff (e : Except String Unit) :
    (∃ msg, e = Except.error msg) ↔ ¬(e = Except.ok ()) := by
  cases e with
  | ok u => cases u; simp
  | error m => simp

theorem initValidate_ok_iff (year departments : PyVal) :
    initValidate year departments = Except.ok ()
      ↔ (validIntListArg year = true ∧ validIntListArg departments = true) := by
  cases year with
  | list ys =>
    cases departments with
    | list ds =>
      simp only [initValidate, validIntListArg]
      by_cases hys : ys.all PyVal.isInstInt = true
      · by_cases hds : ds.all PyVal.isInstInt = true <;> simp [hys, hds]
      · simp [hys]
    | int n => simp only [initValidate, validIntListArg]; split <;> simp
    | bool b => simp only [initValidate, validIntListArg]; split <;> simp
    | str s => simp only [initValidate, validIntListArg]; split <;> simp
    | float s => simp only [initValidate, validIntListArg]; split <;> simp
    | pyNone => simp only [initValidate, validIntListArg]; split <;> simp
  | int n => simp [initValidate, validIntListArg]
  | bool b => simp [initValidate, validIntListArg]
  | str s => simp [initValidate, validIntListArg]
  | float s => simp [initValidate, validIntListArg]
  | pyNone => simp [initValidate, validIntListArg]

/-- C8: construction raises a validation error exactly when `years` or
`departments` fails the "list with every element an integer" check
(integer in Python's `isinstance` sense, which admits booleans — C10),
and succeeds otherwise.  The checks run before any attribute assignment
or directory creation in the source, so a failure creates no partial
state, which the `Except`-valued embedding makes structural. -/
theorem C8_init_validation_iff (year departments : PyVal) :
    ((∃ msg, initValidate year departments = Except.error msg)
      ↔ (validIntListArg year = false ∨ validIntListArg departments = false))
    ∧ (validIntListArg year = true → validIntListArg departments = true →
        initValidate year departments = Except.ok ()) := by
  constructor
  · rw [except_unit_error_iff, initValidate_ok_iff]
    cases hy : validIntListArg year <;> cases hd : validIntListArg departments <;> simp
  · intro h1 h2
    exact (initValidate_ok_iff year departments).mpr ⟨h1, h2⟩

/-- Witness for C8: integer lists validate successfully, and a non-list
`years` argument yields a validation error. -/
theorem C8_init_validation_iff_witness :
    initValidate (PyVal.list [PyVal.int 2023]) (PyVal.list [PyVal.int 75]) = Except.ok ()
    ∧ (∃ msg, initValidate (PyVal.int 2023) (PyVal.list [PyVal.int 75])
        = Except.error msg) := by
  constructor
  · exact (C8_init_validation_iff (PyVal.list [PyVal.int 2023])
      (PyVal.list [PyVal.int 75])).2 rfl rfl
  · exact (C8_init_validation_iff (PyVal.int 2023)
      (PyVal.list [PyVal.int 75])).1.mpr (Or.inl rfl)

/-- C10: the constructor's element check is `isinstance(x, int)` and
Python's `bool` is a subclass of `int`, so boolean elements are accepted:
`year=[True]` and `departments=[False]` both construct successfully. -/
theorem C10_bool_elements_accepted :
    initValidate (PyVal.list [PyVal.bool true]) (PyVal.list [PyVal.int 75]) = Except.ok ()
    ∧ initValidate (PyVal.list [PyVal.int 2023]) (PyVal.list [PyVal.bool false])
        = Except.ok ()
    ∧ PyVal.isInstInt (PyVal.bool true) = true
    ∧ PyVal.isInstInt (PyVal.bool false) = true :=
  ⟨rfl, rfl, rfl, rfl⟩

end PriceEstimator
